import Mathlib

set_option maxRecDepth 1000000

/-!
Verification development for a minimal document-database backend
(`main.py` + `schemas.py`): user signup/login, blog listing with
seed-on-empty, and contact-message submission, over a generic document
store with `create_document` / `get_documents` operations.

Documents are modelled as association lists from field names to values
(the shape of a Python dict / BSON document); a store maps a collection
name to the list of documents it holds, in insertion order.
-/

/-- A field value inside a stored document.  `vStr`, `vBool`, `vArr`
(list of strings, for tag lists), `vNum` (numeric, for `price`) and
`vNull` (Python `None`) cover every field type declared in
`schemas.py`. -/
inductive Value where
  | vStr : String → Value
  | vBool : Bool → Value
  | vArr : List String → Value
  | vNum : Int → Value
  | vNull : Value
  deriving DecidableEq, Repr

/-- A document: an association list of field name / value pairs, with
the first binding of a key the relevant one (Python dict semantics). -/
def Doc : Type := List (String × Value)

instance : DecidableEq Doc := by unfold Doc; infer_instance

/-- `d.get? k` is Python's `d.get(k)`: `some v` for the first binding of
`k`, `none` when the key is absent. -/
def Doc.get? : Doc → String → Option Value
  | [], _ => none
  | (k, v) :: rest, key => if k = key then some v else Doc.get? rest key

/-- Modelled from the spec: the state of the document store, mapping a
collection name to its documents in insertion order.  The adapter
(`database.py`, not part of the sources) treats a collection that does
not exist like an empty one, so both are the empty list. -/
def Store : Type := String → List Doc

/-- A document matches an equality filter when every key of the filter
is present in the document with the filtered value (Mongo-style
equality filter; the empty filter matches everything). -/
def matchesFilter (filt : List (String × Value)) (d : Doc) : Bool :=
  filt.all fun kv => decide (Doc.get? d kv.1 = some kv.2)

/-- Modelled from the spec: `get_documents(collection, filter, limit)`
executes an equality filter against the named collection and returns at
most `limit` matching documents; a missing or empty collection yields
the empty sequence rather than an error. -/
def get_documents (c : String) (filt : List (String × Value)) (limit : Nat)
    (st : Store) : List Doc :=
  ((st c).filter (matchesFilter filt)).take limit

/-- Modelled from the spec: `create_document(collection, entity)`
serializes the entity into a document and inserts it into the named
collection (no duplicate checking of its own). -/
def create_document (c : String) (d : Doc) (st : Store) : Store :=
  fun c' => if c' = c then st c' ++ [d] else st c'

/-! ### Email syntax check

`schemas.py` and the request models use pydantic's `EmailStr`.  The
library itself is not part of the repository, so the check is modelled
from the spec's words "must be syntactically valid email": exactly one
`@`, a nonempty local part, and a domain of at least two nonempty
dot-separated labels. -/

/-- Split a list of characters at every occurrence of `sep`. -/
def splitOnChar (sep : Char) : List Char → List (List Char)
  | [] => [[]]
  | x :: xs =>
    match splitOnChar sep xs with
    | [] => [[]]
    | cur :: rest => if x = sep then [] :: cur :: rest else (x :: cur) :: rest

/-- Modelled from the spec: the "syntactically valid email" format
constraint enforced by the `EmailStr` fields. -/
def is_valid_email (s : String) : Bool :=
  match splitOnChar '@' s.data with
  | [lcl, dom] =>
    decide (lcl ≠ []) &&
      (match splitOnChar '.' dom with
       | labels => decide (labels.length ≥ 2) && labels.all fun l => decide (l ≠ []))
  | _ => false

/-! ### SHA-256

`_hash_password` in `main.py` is
`hashlib.sha256(pw.encode("utf-8")).hexdigest()`.  The SHA-256 function
(FIPS 180-4) is implemented here over byte lists, with 32-bit words as
natural numbers reduced modulo `2^32`. -/

/-- Reduce modulo `2^32` (32-bit word arithmetic). -/
def m32 (n : Nat) : Nat := n % 4294967296

/-- Right rotation of a 32-bit word by `k` bits. -/
def rotr (k n : Nat) : Nat := m32 ((n >>> k) ||| (n <<< (32 - k)))

def ch (x y z : Nat) : Nat := (x &&& y) ^^^ ((x ^^^ 4294967295) &&& z)

def maj (x y z : Nat) : Nat := (x &&& y) ^^^ (x &&& z) ^^^ (y &&& z)

def bsig0 (x : Nat) : Nat := rotr 2 x ^^^ rotr 13 x ^^^ rotr 22 x

def bsig1 (x : Nat) : Nat := rotr 6 x ^^^ rotr 11 x ^^^ rotr 25 x

def ssig0 (x : Nat) : Nat := rotr 7 x ^^^ rotr 18 x ^^^ (x >>> 3)

def ssig1 (x : Nat) : Nat := rotr 17 x ^^^ rotr 19 x ^^^ (x >>> 10)

/-- The SHA-256 round constants (FIPS 180-4 §4.2.2, written in
decimal). -/
def k256 : List Nat :=
  [1116352408, 1899447441, 3049323471, 3921009573, 961987163,
   1508970993, 2453635748, 2870763221, 3624381080, 310598401,
   607225278, 1426881987, 1925078388, 2162078206, 2614888103,
   3248222580, 3835390401, 4022224774, 264347078, 604807628,
   770255983, 1249150122, 1555081692, 1996064986, 2554220882,
   2821834349, 2952996808, 3210313671, 3336571891, 3584528711,
   113926993, 338241895, 666307205, 773529912, 1294757372,
   1396182291, 1695183700, 1986661051, 2177026350, 2456956037,
   2730485921, 2820302411, 3259730800, 3345764771, 3516065817,
   3600352804, 4094571909, 275423344, 430227734, 506948616,
   659060556, 883997877, 958139571, 1322822218, 1537002063,
   1747873779, 1955562222, 2024104815, 2227730452, 2361852424,
   2428436474, 2756734187, 3204031479, 3329325298]

/-- The SHA-256 initial hash value (FIPS 180-4 §5.3.3, in decimal). -/
def h256 : List Nat :=
  [1779033703, 3144134277, 1013904242, 2773480762,
   1359893119, 2600822924, 528734635, 1541459225]

/-- One round of the SHA-256 compression function on the state
`[a,b,c,d,e,f,g,h]`. -/
def compressRound (w : List Nat) (t : Nat) (s : List Nat) : List Nat :=
  let a := s.getD 0 0
  let b := s.getD 1 0
  let c := s.getD 2 0
  let d := s.getD 3 0
  let e := s.getD 4 0
  let f := s.getD 5 0
  let g := s.getD 6 0
  let h := s.getD 7 0
  let T1 := m32 (h + bsig1 e + ch e f g + k256.getD t 0 + w.getD t 0)
  let T2 := m32 (bsig0 a + maj a b c)
  [m32 (T1 + T2), a, b, c, m32 (d + T1), e, f, g]

/-- Process one 64-byte block, updating the 8-word hash value. -/
def processBlock (hv : List Nat) (block : List Nat) : List Nat :=
  let w0 := (List.range 16).map fun i =>
    block.getD (4 * i) 0 * 16777216 + block.getD (4 * i + 1) 0 * 65536 +
      block.getD (4 * i + 2) 0 * 256 + block.getD (4 * i + 3) 0
  let w := (List.range 48).foldl
    (fun ws t =>
      ws ++ [m32 (ssig1 (ws.getD (t + 14) 0) + ws.getD (t + 9) 0 +
        ssig0 (ws.getD (t + 1) 0) + ws.getD t 0)])
    w0
  let s := (List.range 64).foldl (fun st t => compressRound w t st) hv
  List.zipWith (fun x y => m32 (x + y)) hv s

/-- Split a byte list into 64-byte blocks (`fuel` bounds the recursion;
it is instantiated with the length of the list). -/
def toBlocks : Nat → List Nat → List (List Nat)
  | _, [] => []
  | 0, _ => []
  | fuel + 1, bs => bs.take 64 :: toBlocks fuel (bs.drop 64)

/-- The 8-byte big-endian encoding of `n`. -/
def be64 (n : Nat) : List Nat :=
  [(n >>> 56) % 256, (n >>> 48) % 256, (n >>> 40) % 256, (n >>> 32) % 256,
   (n >>> 24) % 256, (n >>> 16) % 256, (n >>> 8) % 256, n % 256]

/-- SHA-256 padding: a `0x80` byte, zeros up to 56 mod 64, then the
bit length as a 64-bit big-endian integer. -/
def padMessage (msg : List Nat) : List Nat :=
  let L := msg.length
  let zeros := (119 - L % 64) % 64
  msg ++ [128] ++ List.replicate zeros 0 ++ be64 (8 * L)

/-- SHA-256 of a byte list, as the list of the 32 digest bytes. -/
def sha256 (msg : List Nat) : List Nat :=
  let padded := padMessage msg
  let hv := (toBlocks padded.length padded).foldl processBlock h256
  hv.foldr
    (fun x acc =>
      [(x >>> 24) % 256, (x >>> 16) % 256, (x >>> 8) % 256, x % 256] ++ acc)
    []

/-- UTF-8 encoding of one Unicode code point. -/
def utf8Bytes (c : Nat) : List Nat :=
  if c < 128 then [c]
  else if c < 2048 then [192 + c / 64, 128 + c % 64]
  else if c < 65536 then
    [224 + c / 4096, 128 + (c / 64) % 64, 128 + c % 64]
  else
    [240 + c / 262144, 128 + (c / 4096) % 64, 128 + (c / 64) % 64, 128 + c % 64]

/-- `s.encode("utf-8")` as a byte list. -/
def utf8Encode (s : String) : List Nat :=
  s.data.foldr (fun c acc => utf8Bytes c.toNat ++ acc) []

def hexChar (n : Nat) : Char :=
  if n < 10 then Char.ofNat (48 + n) else Char.ofNat (87 + n)

def byteToHex (b : Nat) : String := String.mk [hexChar (b / 16), hexChar (b % 16)]

/-- `_hash_password` from `main.py`:
`hashlib.sha256(pw.encode("utf-8")).hexdigest()` (the leading
underscore of the Python name is dropped). -/
def hash_password (pw : String) : String :=
  String.join ((sha256 (utf8Encode pw)).map byteToHex)

set_option maxRecDepth 100000 in
/-- Sanity check of the SHA-256 embedding against the FIPS 180-4 test
vector for `"abc"`. -/
theorem sha256_check_abc :
    hash_password "abc" =
      "ba7816bf8f01cfea414140de5dae2223b00361a396177a9cb410ff61f20015ad" := by
  decide

/-! ### Schema validation

`schemas.py` declares the entities as pydantic models; constructing one
from key-value input validates every declared field.  The declarations
are embedded as ordered field-specification lists, and construction as
a validator driven by them (mirroring how pydantic walks the declared
fields in order, collecting the names of all offending fields into one
`ValidationError`).  An error is the list of offending field names. -/

/-- The type (and format constraint) declared for a field:
`str`, `Optional[str]`, `bool`, `List[str]`, `float`, `EmailStr`. -/
inductive FType where
  | fStr
  | fOptStr
  | fBool
  | fStrList
  | fNum
  | fEmail
  deriving DecidableEq, Repr

/-- Type/format check of a single value against a declared field type.
`Optional[str]` accepts `None`; `EmailStr` is a `str` with the email
format constraint. -/
def checkType : FType → Value → Bool
  | .fStr, .vStr _ => true
  | .fOptStr, .vStr _ => true
  | .fOptStr, .vNull => true
  | .fBool, .vBool _ => true
  | .fStrList, .vArr _ => true
  | .fNum, .vNum _ => true
  | .fEmail, .vStr s => is_valid_email s
  | _, _ => false

/-- One declared field of a pydantic model: its name, type, whether it
is required, and the default used when an optional field is absent. -/
structure FieldSpec where
  fname : String
  ftype : FType
  required : Bool
  dflt : Value
  deriving DecidableEq, Repr

/-- Validate one declared field against the raw input: a present value
must pass the type/format check; an absent required field is an error
naming the field; an absent optional field receives its default. -/
def validateField (sp : FieldSpec) (input : Doc) : Except (List String) (String × Value) :=
  match Doc.get? input sp.fname with
  | some v => if checkType sp.ftype v then .ok (sp.fname, v) else .error [sp.fname]
  | none => if sp.required then .error [sp.fname] else .ok (sp.fname, sp.dflt)

/-- Construct an entity from raw key-value input by validating every
declared field in order, collecting the names of all offending fields
(pydantic reports every failing field in one `ValidationError`).
Unknown input keys are ignored, as pydantic ignores extra keys. -/
def validateDoc : List FieldSpec → Doc → Except (List String) Doc
  | [], _ => .ok []
  | sp :: rest, input =>
    match validateField sp input, validateDoc rest input with
    | .ok f, .ok out => .ok (f :: out)
    | .ok _, .error es => .error es
    | .error es, .ok _ => .error es
    | .error es, .error es2 => .error (es ++ es2)

/-- The `User` model of `schemas.py`: `name`, `email` (`EmailStr`),
`password_hash` required; `is_active` defaults to `True`. -/
def User_fields : List FieldSpec :=
  [⟨"name", .fStr, true, .vNull⟩,
   ⟨"email", .fEmail, true, .vNull⟩,
   ⟨"password_hash", .fStr, true, .vNull⟩,
   ⟨"is_active", .fBool, false, .vBool true⟩]

/-- The `BlogPost` model of `schemas.py`: `title`, `slug`, `content`
required; `excerpt`/`author` optional (default `None`), `tags` defaults
to `[]`, `published` defaults to `True`. -/
def BlogPost_fields : List FieldSpec :=
  [⟨"title", .fStr, true, .vNull⟩,
   ⟨"slug", .fStr, true, .vNull⟩,
   ⟨"excerpt", .fOptStr, false, .vNull⟩,
   ⟨"content", .fStr, true, .vNull⟩,
   ⟨"tags", .fStrList, false, .vArr []⟩,
   ⟨"author", .fOptStr, false, .vNull⟩,
   ⟨"published", .fBool, false, .vBool true⟩]

/-- The `ContactMessage` model of `schemas.py`: `name`, `email`
(`EmailStr`), `message`, all required. -/
def ContactMessage_fields : List FieldSpec :=
  [⟨"name", .fStr, true, .vNull⟩,
   ⟨"email", .fEmail, true, .vNull⟩,
   ⟨"message", .fStr, true, .vNull⟩]

/-- The `Product` model of `schemas.py`: `title`, `price` (float),
`category` required; `description` optional, `in_stock` defaults to
`True`. -/
def Product_fields : List FieldSpec :=
  [⟨"title", .fStr, true, .vNull⟩,
   ⟨"description", .fOptStr, false, .vNull⟩,
   ⟨"price", .fNum, true, .vNull⟩,
   ⟨"category", .fStr, true, .vNull⟩,
   ⟨"in_stock", .fBool, false, .vBool true⟩]

/-- The `AuthResponse` model of `main.py`: `token : str`,
`name : Optional[str] = None`, `email : EmailStr`. -/
def AuthResponse_fields : List FieldSpec :=
  [⟨"token", .fStr, true, .vNull⟩,
   ⟨"name", .fOptStr, false, .vNull⟩,
   ⟨"email", .fEmail, true, .vNull⟩]

/-- The `BlogItem` response model of `main.py`: `title`, `slug`,
`content` required strings, `excerpt`/`author` optional, `tags`
defaults to `[]`. -/
def BlogItem_fields : List FieldSpec :=
  [⟨"title", .fStr, true, .vNull⟩,
   ⟨"slug", .fStr, true, .vNull⟩,
   ⟨"excerpt", .fOptStr, false, .vNull⟩,
   ⟨"content", .fStr, true, .vNull⟩,
   ⟨"tags", .fStrList, false, .vArr []⟩,
   ⟨"author", .fOptStr, false, .vNull⟩]

/-- The `ContactResponse` model of `main.py`: `status : str`. -/
def ContactResponse_fields : List FieldSpec :=
  [⟨"status", .fStr, true, .vNull⟩]

/-! ### Request handlers

The handlers of `main.py`, with the store threaded explicitly and the
randomly generated `uuid4` token passed as a parameter.  A raised
`HTTPException(status, detail)` is `ApiError.http status detail`; a
pydantic `ValidationError` escaping a handler is `ApiError.validation`
with the offending field names. -/

/-- A failure outcome of a handler: an `HTTPException` with status code
and detail, or a pydantic `ValidationError` naming offending fields. -/
inductive ApiError where
  | http : Nat → String → ApiError
  | validation : List String → ApiError
  deriving DecidableEq, Repr

instance {ε α : Type} [DecidableEq ε] [DecidableEq α] : DecidableEq (Except ε α)
  | .error a, .error b =>
    if h : a = b then .isTrue (by rw [h]) else .isFalse (by intro hc; cases hc; exact h rfl)
  | .error _, .ok _ => .isFalse (by intro hc; cases hc)
  | .ok _, .error _ => .isFalse (by intro hc; cases hc)
  | .ok a, .ok b =>
    if h : a = b then .isTrue (by rw [h]) else .isFalse (by intro hc; cases hc; exact h rfl)

/-- The parsed `SignupRequest` body (`name`, `email : EmailStr`,
`password`).  The email validity enforced by `EmailStr` at parse time
appears as an explicit hypothesis in the theorems. -/
structure SignupRequest where
  name : String
  email : String
  password : String
  deriving DecidableEq, Repr

/-- The parsed `LoginRequest` body (`email : EmailStr`, `password`). -/
structure LoginRequest where
  email : String
  password : String
  deriving DecidableEq, Repr

/-- The parsed `ContactRequest` body (`name`, `email : EmailStr`,
`message`). -/
structure ContactRequest where
  name : String
  email : String
  message : String
  deriving DecidableEq, Repr

/-- Python's `for`-loop building a list of validated models, aborting
at the first `ValidationError`. -/
def mapExcept (f : α → Except (List String) Doc) : List α → Except (List String) (List Doc)
  | [] => .ok []
  | a :: rest =>
    match f a with
    | .error es => .error es
    | .ok b =>
      match mapExcept f rest with
      | .error es => .error es
      | .ok bs => .ok (b :: bs)

/-- The `signup` handler of `main.py`: look up the email; reject a
duplicate with 400 "Email already registered"; otherwise construct the
`User` entity (with the SHA-256 hash of the password), persist it, and
answer with an `AuthResponse` carrying the token, name and email. -/
def signup (p : SignupRequest) (token : String) (st : Store) :
    Except ApiError Doc × Store :=
  let existing := get_documents "user" [("email", Value.vStr p.email)] 1 st
  if existing ≠ [] then
    (.error (.http 400 "Email already registered"), st)
  else
    match validateDoc User_fields
        [("name", Value.vStr p.name), ("email", Value.vStr p.email),
         ("password_hash", Value.vStr (hash_password p.password)),
         ("is_active", Value.vBool true)] with
    | .error es => (.error (.validation es), st)
    | .ok user =>
      let st' := create_document "user" user st
      match validateDoc AuthResponse_fields
          [("token", Value.vStr token), ("name", Value.vStr p.name),
           ("email", Value.vStr p.email)] with
      | .ok r => (.ok r, st')
      | .error es => (.error (.validation es), st')

/-- The `login` handler of `main.py`: look up the email; answer 401
"Invalid credentials" when no user matches or when the stored
`password_hash` differs from the hash of the submitted password;
otherwise answer with an `AuthResponse` built from the stored
document. -/
def login (p : LoginRequest) (token : String) (st : Store) : Except ApiError Doc :=
  match get_documents "user" [("email", Value.vStr p.email)] 1 st with
  | [] => .error (.http 401 "Invalid credentials")
  | user_doc :: _ =>
    if Doc.get? user_doc "password_hash" ≠ some (Value.vStr (hash_password p.password)) then
      .error (.http 401 "Invalid credentials")
    else
      match validateDoc AuthResponse_fields
          [("token", Value.vStr token),
           ("name", (Doc.get? user_doc "name").getD Value.vNull),
           ("email", (Doc.get? user_doc "email").getD Value.vNull)] with
      | .ok r => .ok r
      | .error es => .error (.validation es)

/-- One row of the blog listing: `BlogItem(title=d.get("title"),
slug=d.get("slug"), excerpt=d.get("excerpt"),
content=d.get("content", ""), tags=d.get("tags", []),
author=d.get("author"))`. -/
def rowItem (d : Doc) : Except (List String) Doc :=
  validateDoc BlogItem_fields
    [("title", (Doc.get? d "title").getD Value.vNull),
     ("slug", (Doc.get? d "slug").getD Value.vNull),
     ("excerpt", (Doc.get? d "excerpt").getD Value.vNull),
     ("content", (Doc.get? d "content").getD (Value.vStr "")),
     ("tags", (Doc.get? d "tags").getD (Value.vArr [])),
     ("author", (Doc.get? d "author").getD Value.vNull)]

/-- The response-mapping loop of `list_blogs`: every fetched document
becomes a `BlogItem`. -/
def blogResponse (docs : List Doc) : Except ApiError (List Doc) :=
  match mapExcept rowItem docs with
  | .ok items => .ok items
  | .error es => .error (.validation es)

/-- The raw keyword arguments of the three demo `BlogPostSchema(...)`
constructions in `list_blogs`. -/
def samples_raw : List Doc :=
  [[("title", Value.vStr "Launching our next‑gen platform"),
    ("slug", Value.vStr "launching-next-gen-platform"),
    ("excerpt", Value.vStr "How we built a blazing fast, secure, and scalable foundation."),
    ("content", Value.vStr "We are excited to unveil our next‑gen SaaS platform..."),
    ("tags", Value.vArr ["announcement", "platform"]),
    ("author", Value.vStr "Team"),
    ("published", Value.vBool true)],
   [("title", Value.vStr "Designing with 3D: Tips & Tricks"),
    ("slug", Value.vStr "designing-with-3d"),
    ("excerpt", Value.vStr "Bring depth and motion into your product storytelling."),
    ("content", Value.vStr "3D in the browser is more accessible than ever..."),
    ("tags", Value.vArr ["design", "3d"]),
    ("author", Value.vStr "Design"),
    ("published", Value.vBool true)],
   [("title", Value.vStr "Security best practices for startups"),
    ("slug", Value.vStr "security-best-practices"),
    ("excerpt", Value.vStr "Practical guidance to keep your users safe."),
    ("content", Value.vStr "Security is a journey. In this post we cover..."),
    ("tags", Value.vArr ["security"]),
    ("author", Value.vStr "Security"),
    ("published", Value.vBool true)]]

/-- The `list_blogs` handler of `main.py`: fetch up to 20 blogpost
documents; when none exist, construct and persist the three demo posts
and re-read; finally map every fetched document to a `BlogItem`. -/
def list_blogs (st : Store) : Except ApiError (List Doc) × Store :=
  let docs := get_documents "blogpost" [] 20 st
  if docs.isEmpty then
    match mapExcept (validateDoc BlogPost_fields) samples_raw with
    | .error es => (.error (.validation es), st)
    | .ok samples =>
      let st1 := samples.foldl (fun s d => create_document "blogpost" d s) st
      (blogResponse (get_documents "blogpost" [] 20 st1), st1)
  else (blogResponse docs, st)

/-- The `contact` handler of `main.py`: construct the `ContactMessage`
entity, persist it, and answer `ContactResponse(status="received")`. -/
def contact (p : ContactRequest) (st : Store) : Except ApiError Doc × Store :=
  match validateDoc ContactMessage_fields
      [("name", Value.vStr p.name), ("email", Value.vStr p.email),
       ("message", Value.vStr p.message)] with
  | .error es => (.error (.validation es), st)
  | .ok msg =>
    let st' := create_document "contactmessage" msg st
    match validateDoc ContactResponse_fields [("status", Value.vStr "received")] with
    | .ok r => (.ok r, st')
    | .error es => (.error (.validation es), st')

/-! ### Basic lemmas about the store and filters -/

theorem matchesFilter_nil (d : Doc) : matchesFilter [] d = true := rfl

theorem matchesFilter_single (k : String) (v : Value) (d : Doc) :
    matchesFilter [(k, v)] d = decide (Doc.get? d k = some v) := by
  simp [matchesFilter]

theorem filter_matchesFilter_nil (l : List Doc) :
    l.filter (matchesFilter []) = l := by
  induction l with
  | nil => rfl
  | cons d rest ih => simp [List.filter, matchesFilter_nil, ih]

theorem get_documents_empty_filter (c : String) (limit : Nat) (st : Store) :
    get_documents c [] limit st = (st c).take limit := by
  unfold get_documents
  rw [filter_matchesFilter_nil]

theorem take_one_ne_nil {l : List Doc} (h : l ≠ []) : l.take 1 ≠ [] := by
  cases l with
  | nil => exact absurd rfl h
  | cons d rest => simp

theorem filter_ne_nil_of_mem {p : Doc → Bool} {l : List Doc} {d : Doc}
    (hm : d ∈ l) (hp : p d = true) : l.filter p ≠ [] := by
  intro h
  have hmem := List.mem_filter.mpr ⟨hm, hp⟩
  rw [h] at hmem
  exact absurd hmem (List.not_mem_nil d)

theorem filter_eq_nil_of_all {p : Doc → Bool} :
    ∀ l : List Doc, (∀ d ∈ l, p d = false) → l.filter p = []
  | [], _ => rfl
  | d :: rest, h => by
    have hd : p d = false := h d (List.mem_cons_self d rest)
    have hrest := filter_eq_nil_of_all rest fun x hx => h x (List.mem_cons_of_mem d hx)
    simp [List.filter, hd, hrest]

theorem create_document_same (c : String) (d : Doc) (st : Store) :
    create_document c d st c = st c ++ [d] := by
  unfold create_document
  rw [if_pos rfl]

theorem create_document_other (c c' : String) (d : Doc) (st : Store)
    (h : c' ≠ c) : create_document c d st c' = st c' := by
  unfold create_document
  rw [if_neg h]

/-- The single-email filter used by signup and login, applied to a
collection: it is empty exactly when no stored document carries the
email. -/
theorem email_lookup_empty (e : String) (st : Store)
    (h : ∀ d ∈ st "user", Doc.get? d "email" ≠ some (Value.vStr e)) :
    get_documents "user" [("email", Value.vStr e)] 1 st = [] := by
  unfold get_documents
  rw [filter_eq_nil_of_all]
  · rfl
  · intro d hm
    rw [matchesFilter_single]
    exact decide_eq_false (h d hm)

theorem email_lookup_ne_nil (e : String) (st : Store)
    (h : ∃ d ∈ st "user", Doc.get? d "email" = some (Value.vStr e)) :
    get_documents "user" [("email", Value.vStr e)] 1 st ≠ [] := by
  obtain ⟨d, hm, hd⟩ := h
  unfold get_documents
  apply take_one_ne_nil
  apply filter_ne_nil_of_mem hm
  rw [matchesFilter_single]
  exact decide_eq_true hd

/-! ### Reductions of the auth handlers -/

/-- The `User` entity document built by `signup`, in the declared field
order of `schemas.py`. -/
def userEntity (p : SignupRequest) : Doc :=
  [("name", Value.vStr p.name), ("email", Value.vStr p.email),
   ("password_hash", Value.vStr (hash_password p.password)),
   ("is_active", Value.vBool true)]

/-- An `AuthResponse` document. -/
def authDoc (token name email : String) : Doc :=
  [("token", Value.vStr token), ("name", Value.vStr name),
   ("email", Value.vStr email)]

/-- `signup` when some stored user already carries the requested email:
the duplicate-registration failure, with the store untouched. -/
theorem signup_dup (p : SignupRequest) (token : String) (st : Store)
    (h : ∃ d ∈ st "user", Doc.get? d "email" = some (Value.vStr p.email)) :
    signup p token st = (.error (.http 400 "Email already registered"), st) := by
  unfold signup
  rw [if_pos (email_lookup_ne_nil p.email st h)]

/-- `signup` when no stored user carries the requested email: the user
entity is persisted and the `AuthResponse` is returned. -/
theorem signup_fresh (p : SignupRequest) (token : String) (st : Store)
    (hv : is_valid_email p.email = true)
    (h : ∀ d ∈ st "user", Doc.get? d "email" ≠ some (Value.vStr p.email)) :
    signup p token st =
      (.ok (authDoc token p.name p.email),
       create_document "user" (userEntity p) st) := by
  unfold signup
  rw [email_lookup_empty p.email st h]
  simp [validateDoc, validateField, User_fields, AuthResponse_fields, Doc.get?,
    checkType, hv, userEntity, authDoc]

/-! ### Theory of the schema validator -/

/-- The value the constructed entity carries for a declared field:
the input value when the key is present, the declared default
otherwise. -/
def fieldVal (sp : FieldSpec) (input : Doc) : Value :=
  match Doc.get? input sp.fname with
  | some v => v
  | none => sp.dflt

theorem validateField_missing (sp : FieldSpec) (input : Doc)
    (hreq : sp.required = true) (hget : Doc.get? input sp.fname = none) :
    validateField sp input = .error [sp.fname] := by
  unfold validateField
  rw [hget, hreq]
  simp

theorem validateField_mismatch (sp : FieldSpec) (input : Doc) (v : Value)
    (hget : Doc.get? input sp.fname = some v)
    (hty : checkType sp.ftype v = false) :
    validateField sp input = .error [sp.fname] := by
  unfold validateField
  rw [hget]
  simp [hty]

theorem validateField_ok_shape (sp : FieldSpec) (input : Doc) (f : String × Value)
    (h : validateField sp input = .ok f) : f = (sp.fname, fieldVal sp input) := by
  unfold validateField at h
  unfold fieldVal
  cases hget : Doc.get? input sp.fname with
  | none =>
    rw [hget] at h
    cases hreq : sp.required <;> rw [hreq] at h <;> simp_all
  | some v =>
    rw [hget] at h
    cases hty : checkType sp.ftype v <;> simp_all

/-- A successfully constructed entity is exactly the declared fields in
order, each carrying the input value or the declared default. -/
theorem validateDoc_ok_shape :
    ∀ (specs : List FieldSpec) (input : Doc) (out : Doc),
      validateDoc specs input = .ok out →
      out = specs.map fun sp => (sp.fname, fieldVal sp input)
  | [], _, out, h => by
    unfold validateDoc at h
    simp_all
  | sp :: rest, input, out, h => by
    unfold validateDoc at h
    cases hf : validateField sp input with
    | error es =>
      rw [hf] at h
      cases hr : validateDoc rest input <;> rw [hr] at h <;> simp_all
    | ok f =>
      rw [hf] at h
      cases hr : validateDoc rest input with
      | error es => rw [hr] at h; simp_all
      | ok outr =>
        rw [hr] at h
        have h1 := validateField_ok_shape sp input f hf
        have h2 := validateDoc_ok_shape rest input outr hr
        simp_all

/-- A field whose own validation fails makes the whole construction
fail, with the field's name among the reported offending fields. -/
theorem validateDoc_error_mem :
    ∀ (specs : List FieldSpec) (input : Doc) (sp : FieldSpec),
      sp ∈ specs → validateField sp input = .error [sp.fname] →
      ∃ es, validateDoc specs input = .error es ∧ sp.fname ∈ es
  | [], _, sp, hm, _ => absurd hm (List.not_mem_nil sp)
  | s :: rest, input, sp, hm, he => by
    unfold validateDoc
    rcases List.mem_cons.mp hm with rfl | hm'
    · rw [he]
      cases hr : validateDoc rest input with
      | ok outr => exact ⟨[sp.fname], rfl, by simp⟩
      | error es2 => exact ⟨[sp.fname] ++ es2, rfl, by simp⟩
    · obtain ⟨es, hes, hmem⟩ := validateDoc_error_mem rest input sp hm' he
      rw [hes]
      cases hf : validateField s input with
      | ok f => exact ⟨es, rfl, hmem⟩
      | error es0 => exact ⟨es0 ++ es, rfl, List.mem_append_right es0 hmem⟩

/-- Looking up a declared field in the constructed entity, when the
declared field names are distinct. -/
theorem get?_map_specs :
    ∀ (specs : List FieldSpec) (g : FieldSpec → Value) (sp : FieldSpec),
      sp ∈ specs → (specs.map FieldSpec.fname).Nodup →
      Doc.get? (specs.map fun s => (s.fname, g s)) sp.fname = some (g sp)
  | [], _, sp, hm, _ => absurd hm (List.not_mem_nil sp)
  | s :: rest, g, sp, hm, hnd => by
    have hget : Doc.get? ((s.fname, g s) :: rest.map fun s => (s.fname, g s)) sp.fname =
        if s.fname = sp.fname then some (g s)
        else Doc.get? (rest.map fun s => (s.fname, g s)) sp.fname := rfl
    simp only [List.map]
    rw [hget]
    by_cases heq : s.fname = sp.fname
    · rcases List.mem_cons.mp hm with rfl | hm'
      · rw [if_pos heq]
      · exfalso
        have hin : sp.fname ∈ rest.map FieldSpec.fname := List.mem_map_of_mem _ hm'
        have hout := (List.nodup_cons.mp hnd).1
        rw [heq] at hout
        exact hout hin
    · rw [if_neg heq]
      rcases List.mem_cons.mp hm with rfl | hm'
      · exact absurd rfl heq
      · exact get?_map_specs rest g sp hm' (List.nodup_cons.mp hnd).2

/-- A key not among the declared field names is absent from the
constructed entity. -/
theorem get?_map_none :
    ∀ (specs : List FieldSpec) (g : FieldSpec → Value) (key : String),
      (∀ sp ∈ specs, sp.fname ≠ key) →
      Doc.get? (specs.map fun s => (s.fname, g s)) key = none
  | [], _, _, _ => rfl
  | s :: rest, g, key, h => by
    have hne : s.fname ≠ key := h s (List.mem_cons_self s rest)
    have hget : Doc.get? ((s.fname, g s) :: rest.map fun s => (s.fname, g s)) key =
        if s.fname = key then some (g s)
        else Doc.get? (rest.map fun s => (s.fname, g s)) key := rfl
    simp only [List.map]
    rw [hget, if_neg hne]
    exact get?_map_none rest g key fun sp hm => h sp (List.mem_cons_of_mem s hm)

/-- `login` when the email lookup finds no user: 401, with the same
message as the password-mismatch case. -/
theorem login_no_user (p : LoginRequest) (token : String) (st : Store)
    (h : get_documents "user" [("email", Value.vStr p.email)] 1 st = []) :
    login p token st = .error (.http 401 "Invalid credentials") := by
  unfold login
  rw [h]

/-- `login` when the found document's stored hash differs from the hash
of the submitted password: 401, with the same message as the
no-such-user case. -/
theorem login_wrong_password (p : LoginRequest) (token : String) (st : Store)
    (d : Doc) (rest : List Doc)
    (hfound : get_documents "user" [("email", Value.vStr p.email)] 1 st = d :: rest)
    (hne : Doc.get? d "password_hash" ≠ some (Value.vStr (hash_password p.password))) :
    login p token st = .error (.http 401 "Invalid credentials") := by
  unfold login
  rw [hfound]
  dsimp only
  rw [if_pos hne]

/-- `login` when the found document carries the matching hash and
well-formed `name`/`email` fields. -/
theorem login_hit (p : LoginRequest) (token : String) (st : Store)
    (d : Doc) (rest : List Doc) (nm e : String)
    (hfound : get_documents "user" [("email", Value.vStr p.email)] 1 st = d :: rest)
    (hph : Doc.get? d "password_hash" = some (Value.vStr (hash_password p.password)))
    (hn : Doc.get? d "name" = some (Value.vStr nm))
    (hem : Doc.get? d "email" = some (Value.vStr e))
    (hv : is_valid_email e = true) :
    login p token st = .ok (authDoc token nm e) := by
  unfold login
  rw [hfound]
  dsimp only
  rw [if_neg (fun hc => hc hph)]
  rw [hn, hem]
  simp [validateDoc, validateField, AuthResponse_fields, Doc.get?, checkType,
    hv, authDoc]

/-! ### Reductions of the blog handler -/

/-- The items the three demo posts map to: the same six response
fields, without `published`. -/
def demoItems : List Doc :=
  [[("title", Value.vStr "Launching our next‑gen platform"),
    ("slug", Value.vStr "launching-next-gen-platform"),
    ("excerpt", Value.vStr "How we built a blazing fast, secure, and scalable foundation."),
    ("content", Value.vStr "We are excited to unveil our next‑gen SaaS platform..."),
    ("tags", Value.vArr ["announcement", "platform"]),
    ("author", Value.vStr "Team")],
   [("title", Value.vStr "Designing with 3D: Tips & Tricks"),
    ("slug", Value.vStr "designing-with-3d"),
    ("excerpt", Value.vStr "Bring depth and motion into your product storytelling."),
    ("content", Value.vStr "3D in the browser is more accessible than ever..."),
    ("tags", Value.vArr ["design", "3d"]),
    ("author", Value.vStr "Design")],
   [("title", Value.vStr "Security best practices for startups"),
    ("slug", Value.vStr "security-best-practices"),
    ("excerpt", Value.vStr "Practical guidance to keep your users safe."),
    ("content", Value.vStr "Security is a journey. In this post we cover..."),
    ("tags", Value.vArr ["security"]),
    ("author", Value.vStr "Security")]]

/-- Constructing the three demo `BlogPostSchema` entities succeeds and
serializes them unchanged (every declared field is supplied, in
declaration order). -/
theorem samples_valid :
    mapExcept (validateDoc BlogPost_fields) samples_raw = .ok samples_raw := by
  rfl

/-- Mapping the three seeded documents to response items drops exactly
the `published` field. -/
theorem blogResponse_samples : blogResponse samples_raw = .ok demoItems := by
  rfl

/-- The store after the seeding loop of `list_blogs`. -/
def seedStore (st : Store) : Store :=
  samples_raw.foldl (fun s d => create_document "blogpost" d s) st

theorem seedStore_blogpost (st : Store) :
    seedStore st "blogpost" = st "blogpost" ++ samples_raw := by
  show (create_document "blogpost" (samples_raw.get ⟨2, by decide⟩)
      (create_document "blogpost" (samples_raw.get ⟨1, by decide⟩)
        (create_document "blogpost" (samples_raw.get ⟨0, by decide⟩) st))) "blogpost" =
    st "blogpost" ++ samples_raw
  rw [create_document_same, create_document_same, create_document_same]
  simp [List.append_assoc]
  rfl

theorem seedStore_other (st : Store) (c : String) (h : c ≠ "blogpost") :
    seedStore st c = st c := by
  show (create_document "blogpost" (samples_raw.get ⟨2, by decide⟩)
      (create_document "blogpost" (samples_raw.get ⟨1, by decide⟩)
        (create_document "blogpost" (samples_raw.get ⟨0, by decide⟩) st))) c = st c
  rw [create_document_other _ _ _ _ h, create_document_other _ _ _ _ h,
    create_document_other _ _ _ _ h]

theorem take20_isEmpty_false (l : List Doc) (h : l ≠ []) :
    (l.take 20).isEmpty = false := by
  cases l with
  | nil => exact absurd rfl h
  | cons d rest => rfl

/-- `list_blogs` on a nonempty collection: no seeding, the store is
untouched, and the response maps the first 20 documents. -/
theorem list_blogs_nonempty (st : Store) (h : st "blogpost" ≠ []) :
    list_blogs st = (blogResponse ((st "blogpost").take 20), st) := by
  unfold list_blogs
  dsimp only
  rw [get_documents_empty_filter, take20_isEmpty_false _ h]
  simp

/-- `list_blogs` on an empty collection: the three demo posts are
constructed, persisted and mapped to the response. -/
theorem list_blogs_empty (st : Store) (h : st "blogpost" = []) :
    list_blogs st = (.ok demoItems, seedStore st) := by
  have h1 : get_documents "blogpost" [] 20 st = [] := by
    rw [get_documents_empty_filter, h]
    rfl
  unfold list_blogs
  rw [h1]
  rw [samples_valid]
  show (blogResponse (get_documents "blogpost" [] 20 (seedStore st)), seedStore st) =
    (.ok demoItems, seedStore st)
  rw [get_documents_empty_filter, seedStore_blogpost, h]
  rw [List.nil_append]
  rw [show samples_raw.take 20 = samples_raw from rfl]
  rw [blogResponse_samples]

/-- Every item produced by the response-mapping loop comes from some
fetched document. -/
theorem mapExcept_ok_mem {α : Type} (f : α → Except (List String) Doc) :
    ∀ (l : List α) (out : List Doc), mapExcept f l = .ok out →
      ∀ y ∈ out, ∃ x ∈ l, f x = .ok y
  | [], out, h => by
    unfold mapExcept at h
    simp_all
  | a :: rest, out, h => by
    unfold mapExcept at h
    cases hf : f a with
    | error es => rw [hf] at h; simp at h
    | ok b =>
      rw [hf] at h
      cases hr : mapExcept f rest with
      | error es => rw [hr] at h; simp at h
      | ok bs =>
        rw [hr] at h
        simp at h
        intro y hy
        rw [← h] at hy
        rcases List.mem_cons.mp hy with rfl | hy'
        · exact ⟨a, List.mem_cons_self a rest, hf⟩
        · obtain ⟨x, hx, hfx⟩ := mapExcept_ok_mem f rest bs hr y hy'
          exact ⟨x, List.mem_cons_of_mem a hx, hfx⟩

/-! ### Concrete fixtures used by the witnesses -/

/-- The store with no documents at all. -/
def emptyStore : Store := fun _ => []

/-- A store holding exactly one registered user (the "Ada" example),
whose stored hash is the hash of `"secret"`. -/
def demoUserStore : Store := fun c =>
  if c = "user" then
    [[("name", Value.vStr "Ada"), ("email", Value.vStr "ada@x.com"),
      ("password_hash", Value.vStr (hash_password "secret")),
      ("is_active", Value.vBool true)]]
  else []

/-- A store holding exactly one blog post, with `published = false`. -/
def onePostStore : Store := fun c =>
  if c = "blogpost" then
    [[("title", Value.vStr "T"), ("slug", Value.vStr "s"),
      ("content", Value.vStr "c"), ("published", Value.vBool false)]]
  else []

/-- Raw signup-shaped input for the `User` schema with the optional
`is_active` left absent. -/
def userOkInput : Doc :=
  [("name", Value.vStr "Ada"), ("email", Value.vStr "ada@x.com"),
   ("password_hash", Value.vStr "h")]

/-- The entity `userOkInput` constructs: `is_active` filled with its
declared default `True`. -/
def userOkOut : Doc :=
  [("name", Value.vStr "Ada"), ("email", Value.vStr "ada@x.com"),
   ("password_hash", Value.vStr "h"), ("is_active", Value.vBool true)]

/-! ### The claims -/

/-- C1: a signup payload whose email already occurs in the `user`
collection fails with the 400 duplicate-registration error regardless
of the password supplied, leaving the store untouched; a payload with a
previously-unused (valid) email succeeds, answering the token, the
name and the email. -/
theorem c1_signup_duplicate_fails_fresh_succeeds
    (p : SignupRequest) (token : String) (st : Store) :
    ((∃ d ∈ st "user", Doc.get? d "email" = some (Value.vStr p.email)) →
      ∀ pw : String,
        signup ⟨p.name, p.email, pw⟩ token st =
          (.error (.http 400 "Email already registered"), st)) ∧
    (is_valid_email p.email = true →
      (∀ d ∈ st "user", Doc.get? d "email" ≠ some (Value.vStr p.email)) →
      (signup p token st).1 = .ok (authDoc token p.name p.email)) := by
  constructor
  · intro h pw
    exact signup_dup ⟨p.name, p.email, pw⟩ token st h
  · intro hv h
    rw [signup_fresh p token st hv h]

/-- C1 witness: re-signing up Ada's email fails with the duplicate
error whatever the password; a fresh email signs up successfully. -/
theorem c1_witness :
    signup ⟨"Ada", "ada@x.com", "other"⟩ "tok" demoUserStore =
      (.error (.http 400 "Email already registered"), demoUserStore) ∧
    (signup ⟨"Ada", "ada@x.com", "secret"⟩ "tok" emptyStore).1 =
      .ok (authDoc "tok" "Ada" "ada@x.com") :=
  ⟨(c1_signup_duplicate_fails_fresh_succeeds ⟨"Ada", "ada@x.com", "x"⟩ "tok"
      demoUserStore).1 (by decide) "other",
   (c1_signup_duplicate_fails_fresh_succeeds ⟨"Ada", "ada@x.com", "secret"⟩ "tok"
      emptyStore).2 (by decide) (by decide)⟩

theorem userEntity_email (p : SignupRequest) :
    Doc.get? (userEntity p) "email" = some (Value.vStr p.email) := by
  simp [userEntity, Doc.get?]

theorem userEntity_name (p : SignupRequest) :
    Doc.get? (userEntity p) "name" = some (Value.vStr p.name) := by
  simp [userEntity, Doc.get?]

theorem userEntity_hash (p : SignupRequest) :
    Doc.get? (userEntity p) "password_hash" =
      some (Value.vStr (hash_password p.password)) := by
  simp [userEntity, Doc.get?]

/-- After a fresh signup, looking the email up finds exactly the newly
persisted user document. -/
theorem lookup_after_signup (p : SignupRequest) (st : Store)
    (h : ∀ d ∈ st "user", Doc.get? d "email" ≠ some (Value.vStr p.email)) :
    get_documents "user" [("email", Value.vStr p.email)] 1
      (create_document "user" (userEntity p) st) = [userEntity p] := by
  unfold get_documents
  rw [create_document_same, List.filter_append]
  rw [filter_eq_nil_of_all (st "user") fun d hm => by
    rw [matchesFilter_single]
    exact decide_eq_false (h d hm)]
  rw [List.nil_append]
  have hmatch : matchesFilter [("email", Value.vStr p.email)] (userEntity p) = true := by
    rw [matchesFilter_single]
    exact decide_eq_true (userEntity_email p)
  simp [List.filter, hmatch]

/-- C2: signup with a previously-unused valid email succeeds, and a
subsequent login with the same email and password against the resulting
store succeeds with a token (signup/login round trip). -/
theorem c2_signup_login_roundtrip
    (p : SignupRequest) (token token2 : String) (st : Store)
    (hv : is_valid_email p.email = true)
    (h : ∀ d ∈ st "user", Doc.get? d "email" ≠ some (Value.vStr p.email)) :
    (signup p token st).1 = .ok (authDoc token p.name p.email) ∧
    login ⟨p.email, p.password⟩ token2 (signup p token st).2 =
      .ok (authDoc token2 p.name p.email) := by
  have hs := signup_fresh p token st hv h
  constructor
  · rw [hs]
  · rw [hs]
    exact login_hit ⟨p.email, p.password⟩ token2 _ (userEntity p) [] p.name p.email
      (lookup_after_signup p st h) (userEntity_hash p) (userEntity_name p)
      (userEntity_email p) hv

/-- C2 witness: the Ada example round trip on the empty store. -/
theorem c2_witness :
    (signup ⟨"Ada", "ada@x.com", "secret"⟩ "t1" emptyStore).1 =
      .ok (authDoc "t1" "Ada" "ada@x.com") ∧
    login ⟨"ada@x.com", "secret"⟩ "t2"
        (signup ⟨"Ada", "ada@x.com", "secret"⟩ "t1" emptyStore).2 =
      .ok (authDoc "t2" "Ada" "ada@x.com") :=
  c2_signup_login_roundtrip ⟨"Ada", "ada@x.com", "secret"⟩ "t1" "t2" emptyStore
    (by decide) (by decide)

/-- C3: both ways a login can fail — no user document matching the
email, or a stored hash differing from the hash of the submitted
password — produce the identical outcome, a 401 with the same
message, so the response does not distinguish the two causes. -/
theorem c3_login_failure_indistinguishable
    (p : LoginRequest) (token : String) (st : Store) :
    (get_documents "user" [("email", Value.vStr p.email)] 1 st = [] →
      login p token st = .error (.http 401 "Invalid credentials")) ∧
    (∀ d rest,
      get_documents "user" [("email", Value.vStr p.email)] 1 st = d :: rest →
      Doc.get? d "password_hash" ≠ some (Value.vStr (hash_password p.password)) →
      login p token st = .error (.http 401 "Invalid credentials")) := by
  constructor
  · exact login_no_user p token st
  · intro d rest hfound hne
    exact login_wrong_password p token st d rest hfound hne

/-- C3 witness: an unknown email and a wrong password for a known email
produce the very same 401 outcome. -/
theorem c3_witness :
    login ⟨"nobody@x.com", "secret"⟩ "t" demoUserStore =
      .error (.http 401 "Invalid credentials") ∧
    login ⟨"ada@x.com", "wrong"⟩ "t" demoUserStore =
      .error (.http 401 "Invalid credentials") :=
  ⟨(c3_login_failure_indistinguishable ⟨"nobody@x.com", "secret"⟩ "t"
      demoUserStore).1 (by decide),
   (c3_login_failure_indistinguishable ⟨"ada@x.com", "wrong"⟩ "t"
      demoUserStore).2
     [("name", Value.vStr "Ada"), ("email", Value.vStr "ada@x.com"),
      ("password_hash", Value.vStr (hash_password "secret")),
      ("is_active", Value.vBool true)] [] (by decide) (by decide)⟩

/-- C4: calling the blog listing on an empty `blogpost` collection
seeds exactly the three demo posts (each stored with
`published = true`) and returns their three items; calling it again
returns the same three items and leaves the store exactly as it was
(no further seeding). -/
theorem c4_blogs_seed_once (st : Store) (h : st "blogpost" = []) :
    (list_blogs st).1 = .ok demoItems ∧
    demoItems.length = 3 ∧
    (list_blogs st).2 "blogpost" = samples_raw ∧
    (∀ d ∈ samples_raw, Doc.get? d "published" = some (Value.vBool true)) ∧
    (list_blogs ((list_blogs st).2)).1 = .ok demoItems ∧
    (∀ c, (list_blogs ((list_blogs st).2)).2 c = (list_blogs st).2 c) := by
  have hA := list_blogs_empty st h
  have hsnd : (list_blogs st).2 = seedStore st := by rw [hA]
  have hseed : seedStore st "blogpost" = samples_raw := by
    rw [seedStore_blogpost, h, List.nil_append]
  have hne : seedStore st "blogpost" ≠ [] := by
    rw [hseed]
    decide
  have hB := list_blogs_nonempty (seedStore st) hne
  refine ⟨by rw [hA], by decide, by rw [hsnd, hseed], by decide, ?_, ?_⟩
  · rw [hsnd, hB]
    show blogResponse ((seedStore st "blogpost").take 20) = .ok demoItems
    rw [hseed]
    rw [show samples_raw.take 20 = samples_raw from rfl]
    exact blogResponse_samples
  · intro c
    rw [hsnd, hB]

/-- C4 witness: the seeding behaviour on the fully empty store. -/
theorem c4_witness :
    (list_blogs emptyStore).1 = .ok demoItems ∧
    (list_blogs ((list_blogs emptyStore).2)).1 = .ok demoItems ∧
    (list_blogs ((list_blogs emptyStore).2)).2 "blogpost" =
      (list_blogs emptyStore).2 "blogpost" :=
  ⟨(c4_blogs_seed_once emptyStore rfl).1,
   (c4_blogs_seed_once emptyStore rfl).2.2.2.2.1,
   (c4_blogs_seed_once emptyStore rfl).2.2.2.2.2 "blogpost"⟩

/-- The `ContactMessage` entity document persisted by `contact`. -/
def contactEntity (p : ContactRequest) : Doc :=
  [("name", Value.vStr p.name), ("email", Value.vStr p.email),
   ("message", Value.vStr p.message)]

/-- C5: a valid contact payload always gets the `received` status back
and appends exactly one document to the `contactmessage` collection,
while every other collection is left unchanged. -/
theorem c5_contact_one_insert (p : ContactRequest) (st : Store)
    (hv : is_valid_email p.email = true) :
    (contact p st).1 = .ok [("status", Value.vStr "received")] ∧
    (contact p st).2 "contactmessage" =
      st "contactmessage" ++ [contactEntity p] ∧
    (∀ c, c ≠ "contactmessage" → (contact p st).2 c = st c) := by
  have hval : validateDoc ContactMessage_fields (contactEntity p) = .ok (contactEntity p) := by
    simp [validateDoc, validateField, ContactMessage_fields, contactEntity,
      Doc.get?, checkType, hv]
  have hc : contact p st =
      (.ok [("status", Value.vStr "received")],
       create_document "contactmessage" (contactEntity p) st) := by
    unfold contact
    rw [show [("name", Value.vStr p.name), ("email", Value.vStr p.email),
      ("message", Value.vStr p.message)] = contactEntity p from rfl]
    rw [hval]
    rfl
  refine ⟨by rw [hc], ?_, ?_⟩
  · rw [hc]
    show create_document "contactmessage" (contactEntity p) st "contactmessage" =
      st "contactmessage" ++ [contactEntity p]
    exact create_document_same _ _ _
  · intro c hcne
    rw [hc]
    show create_document "contactmessage" (contactEntity p) st c = st c
    exact create_document_other _ _ _ _ hcne

/-- C5 witness: a concrete contact submission on the empty store. -/
theorem c5_witness :
    (contact ⟨"Ana", "a@b.co", "hi"⟩ emptyStore).1 =
      .ok [("status", Value.vStr "received")] ∧
    (contact ⟨"Ana", "a@b.co", "hi"⟩ emptyStore).2 "contactmessage" =
      [contactEntity ⟨"Ana", "a@b.co", "hi"⟩] ∧
    (contact ⟨"Ana", "a@b.co", "hi"⟩ emptyStore).2 "user" = [] :=
  ⟨(c5_contact_one_insert ⟨"Ana", "a@b.co", "hi"⟩ emptyStore (by decide)).1,
   (c5_contact_one_insert ⟨"Ana", "a@b.co", "hi"⟩ emptyStore (by decide)).2.1,
   (c5_contact_one_insert ⟨"Ana", "a@b.co", "hi"⟩ emptyStore (by decide)).2.2
     "user" (by decide)⟩

/-- C7: for each of the four declared entities, constructing an
instance from raw key-value input fails with a `ValidationError` naming
the offending field whenever a required field is missing or a present
field fails its type/format check (which for `EmailStr` fields is the
email-syntax constraint); and on success every optional field absent
from the input carries its declared default in the constructed
entity. -/
theorem c7_schema_validation (specs : List FieldSpec)
    (hspecs : specs ∈ [User_fields, BlogPost_fields, ContactMessage_fields, Product_fields])
    (input : Doc) :
    (∀ sp ∈ specs, sp.required = true → Doc.get? input sp.fname = none →
      ∃ es, validateDoc specs input = .error es ∧ sp.fname ∈ es) ∧
    (∀ sp ∈ specs, ∀ v, Doc.get? input sp.fname = some v →
      checkType sp.ftype v = false →
      ∃ es, validateDoc specs input = .error es ∧ sp.fname ∈ es) ∧
    (∀ out, validateDoc specs input = .ok out → ∀ sp ∈ specs,
      sp.required = false → Doc.get? input sp.fname = none →
      Doc.get? out sp.fname = some sp.dflt) := by
  refine ⟨?_, ?_, ?_⟩
  · intro sp hm hreq hget
    exact validateDoc_error_mem specs input sp hm
      (validateField_missing sp input hreq hget)
  · intro sp hm v hget hty
    exact validateDoc_error_mem specs input sp hm
      (validateField_mismatch sp input v hget hty)
  · intro out hok sp hm hreq hget
    have hnd : (specs.map FieldSpec.fname).Nodup := by
      simp only [List.mem_cons, List.not_mem_nil, or_false] at hspecs
      rcases hspecs with rfl | rfl | rfl | rfl <;> decide
    rw [validateDoc_ok_shape specs input out hok]
    rw [get?_map_specs specs (fun s => fieldVal s input) sp hm hnd]
    unfold fieldVal
    rw [hget]

/-- C7 witness: constructing a `User` from input without `is_active`
fills in the declared default `True`. -/
theorem c7_witness : Doc.get? userOkOut "is_active" = some (Value.vBool true) :=
  (c7_schema_validation User_fields (by decide) userOkInput).2.2 userOkOut
    (by decide) ⟨"is_active", FType.fBool, false, Value.vBool true⟩
    (by decide) rfl rfl

/-- C8: `get_documents` with the empty filter and limit 20 returns at
most 20 documents; and it returns the empty sequence — rather than an
error — when the collection is absent/empty or when no document
matches the filter.  (Modelled from the spec: the adapter itself is not
among the sources.) -/
theorem c8_get_documents_limit (st : Store) (c : String)
    (filt : List (String × Value)) :
    (get_documents c [] 20 st).length ≤ 20 ∧
    (st c = [] → get_documents c filt 20 st = []) ∧
    ((∀ d ∈ st c, matchesFilter filt d = false) →
      get_documents c filt 20 st = []) := by
  refine ⟨?_, ?_, ?_⟩
  · unfold get_documents
    exact List.length_take_le 20 _
  · intro h
    unfold get_documents
    rw [h]
    rfl
  · intro h
    unfold get_documents
    rw [filter_eq_nil_of_all _ h]
    rfl

/-- C8 witness: a 21-document collection yields 20; a missing
collection and an unmatched filter yield the empty sequence. -/
theorem c8_witness :
    (get_documents "blogpost" [] 20
      (fun c => if c = "blogpost" then List.replicate 21 [] else [])).length ≤ 20 ∧
    get_documents "nosuch" [("a", Value.vStr "b")] 20 emptyStore = [] ∧
    get_documents "user" [("email", Value.vStr "zz@x.com")] 20 demoUserStore = [] :=
  ⟨(c8_get_documents_limit
      (fun c => if c = "blogpost" then List.replicate 21 [] else [])
      "blogpost" []).1,
   (c8_get_documents_limit emptyStore "nosuch" [("a", Value.vStr "b")]).2.1 rfl,
   (c8_get_documents_limit demoUserStore "user"
      [("email", Value.vStr "zz@x.com")]).2.2 (by decide)⟩

/-- C9: whenever signup fails with the duplicate-email error, the store
is completely unchanged — the duplicate check raises before any
`create_document` call, so no collection gains a document. -/
theorem c9_duplicate_signup_no_write (p : SignupRequest) (token : String)
    (st : Store)
    (hfst : (signup p token st).1 = .error (.http 400 "Email already registered")) :
    ∀ c, (signup p token st).2 c = st c := by
  intro c
  unfold signup at hfst ⊢
  by_cases hex : get_documents "user" [("email", Value.vStr p.email)] 1 st ≠ []
  · rw [if_pos hex]
  · exfalso
    rw [if_neg hex] at hfst
    dsimp only at hfst
    split at hfst
    · simp at hfst
    · split at hfst <;> simp at hfst

/-- C9 witness: on the duplicate Ada signup, the `user` collection (and
any other) is exactly what it was. -/
theorem c9_witness :
    (signup ⟨"Ada", "ada@x.com", "other"⟩ "tok" demoUserStore).2 "user" =
      demoUserStore "user" :=
  c9_duplicate_signup_no_write ⟨"Ada", "ada@x.com", "other"⟩ "tok" demoUserStore
    (by decide) "user"

/-- C10: on a nonempty collection the blog listing maps every stored
document up to the limit of 20, with no filtering on `published`; an
item of a successful response never carries a `published` field; and
the item built for a document depends only on the six response fields,
so two documents differing only in `published` yield the same item. -/
theorem c10_blogs_ignore_published (st : Store) (h : st "blogpost" ≠ []) :
    (list_blogs st).1 = blogResponse ((st "blogpost").take 20) ∧
    (∀ items, (list_blogs st).1 = .ok items →
      ∀ item ∈ items, Doc.get? item "published" = none) ∧
    (∀ d d' : Doc,
      (∀ f ∈ (["title", "slug", "excerpt", "content", "tags", "author"] : List String),
        Doc.get? d f = Doc.get? d' f) →
      rowItem d = rowItem d') := by
  have hB := list_blogs_nonempty st h
  refine ⟨by rw [hB], ?_, ?_⟩
  · intro items hok item hitem
    rw [hB] at hok
    unfold blogResponse at hok
    cases hmap : mapExcept rowItem ((st "blogpost").take 20) with
    | error es => rw [hmap] at hok; simp at hok
    | ok its =>
      rw [hmap] at hok
      simp at hok
      obtain ⟨x, hx, hfx⟩ := mapExcept_ok_mem rowItem _ its hmap item (hok ▸ hitem)
      unfold rowItem at hfx
      rw [validateDoc_ok_shape BlogItem_fields _ item hfx]
      exact get?_map_none BlogItem_fields _ "published" (by decide)
  · intro d d' hagree
    have h1 := hagree "title" (by simp)
    have h2 := hagree "slug" (by simp)
    have h3 := hagree "excerpt" (by simp)
    have h4 := hagree "content" (by simp)
    have h5 := hagree "tags" (by simp)
    have h6 := hagree "author" (by simp)
    unfold rowItem
    rw [h1, h2, h3, h4, h5, h6]

/-- C10 witness: a store whose single blog post is unpublished still
returns it, as an item without the `published` field. -/
theorem c10_witness :
    (list_blogs onePostStore).1 = blogResponse ((onePostStore "blogpost").take 20) ∧
    blogResponse ((onePostStore "blogpost").take 20) =
      .ok [[("title", Value.vStr "T"), ("slug", Value.vStr "s"),
            ("excerpt", Value.vNull), ("content", Value.vStr "c"),
            ("tags", Value.vArr []), ("author", Value.vNull)]] :=
  ⟨(c10_blogs_ignore_published onePostStore (by decide)).1, rfl⟩
